import Mathlib

/-!
Shallow embedding of src/voron_monitor_pack/voron_monitor.py and proofs
about its probes (USBMonitor, PowerMonitor, SystemMonitor, LatencyMonitor,
LogMonitor), the CSVLogger and the main sampling cycle.

Python strings are modelled as lists of characters (Str); machine-level
collaborators (subprocess.run, psutil, os.getloadavg, the log file) are
modelled as explicit inputs, with Except carrying the "this call raised"
case.  Python floats are modelled as rationals.
-/

namespace VoronMonitor

/-- Python strings, modelled as character lists so that every string
operation of the source is structurally recursive and kernel-computable. -/
abbrev Str := List Char

/-- The whitespace characters stripped by Python str.strip and matched by
the regex class backslash-s (ASCII range). -/
def isPyWS (c : Char) : Bool :=
  c == ' ' || c == '\t' || c == '\n' || c == '\r' || c == '\x0b' || c == '\x0c'

/-- Model of Python str.strip(): drop leading and trailing whitespace. -/
def pyStrip (l : Str) : Str :=
  ((l.dropWhile isPyWS).reverse.dropWhile isPyWS).reverse

/-- Helper for splitChar: accumulate the current field in reverse. -/
def splitCharAux (sep : Char) : Str → Str → List Str
  | [], acc => [acc.reverse]
  | c :: cs, acc =>
    if c == sep then acc.reverse :: splitCharAux sep cs []
    else splitCharAux sep cs (c :: acc)

/-- Model of Python str.split(sep) for a one-character separator. -/
def splitChar (sep : Char) (l : Str) : List Str := splitCharAux sep l []

/-- ASCII lower-casing of one character (model of re.IGNORECASE folding). -/
def lowerChar (c : Char) : Char :=
  if 65 ≤ c.toNat && c.toNat ≤ 90 then Char.ofNat (c.toNat + 32) else c

/-- ASCII lower-casing of a string. -/
def lowerStr (l : Str) : Str := l.map lowerChar

/-- Does the second list start with the first? -/
def startsWithB : Str → Str → Bool
  | [], _ => true
  | _ :: _, [] => false
  | p :: ps, c :: cs => p == c && startsWithB ps cs

/-- Does the string contain the pattern as a contiguous substring?
Model of a literal-text regex search. -/
def containsSub (pat : Str) : Str → Bool
  | [] => startsWithB pat []
  | c :: cs => startsWithB pat (c :: cs) || containsSub pat cs

/-- Fuel-bounded worker for removeSub; fuel is the input length, so the
fuel never runs out. -/
def removeSubFuel (pat : Str) : Nat → Str → Str
  | 0, l => l
  | _ + 1, [] => []
  | fuel + 1, c :: cs =>
    if !pat.isEmpty && startsWithB pat (c :: cs) then
      removeSubFuel pat fuel ((c :: cs).drop pat.length)
    else c :: removeSubFuel pat fuel cs

/-- Model of Python str.replace(pat, empty-string): delete every
left-to-right non-overlapping occurrence of pat. -/
def removeSub (pat : Str) (l : Str) : Str := removeSubFuel pat l.length l

/-- Decimal digits to a natural number. -/
def digitsToNat (l : Str) : Nat := l.foldl (fun a c => a * 10 + (c.toNat - 48)) 0

/-- Is the character a hexadecimal digit? -/
def isHexDigitB (c : Char) : Bool :=
  c.isDigit || (97 ≤ (lowerChar c).toNat && (lowerChar c).toNat ≤ 102)

/-- Value of one hexadecimal digit. -/
def hexVal (c : Char) : Nat :=
  if c.isDigit then c.toNat - 48 else (lowerChar c).toNat - 87

/-- Model of Python int(s, 16): optional 0x prefix, at least one hex digit,
nothing else; returns none where Python raises ValueError. -/
def parseHexNat (s : Str) : Option Nat :=
  let s := pyStrip s
  let s := match s with
    | '0' :: 'x' :: rest => rest
    | '0' :: 'X' :: rest => rest
    | _ => s
  if !s.isEmpty && s.all isHexDigitB then
    some (s.foldl (fun a c => a * 16 + hexVal c) 0)
  else none

/-- Unsigned part of a Python float literal: digits, optionally a dot and
more digits, with at least one digit overall. -/
def parseUFloat (s : Str) : Option ℚ :=
  let intPart := s.takeWhile Char.isDigit
  let rest := s.dropWhile Char.isDigit
  match rest with
  | [] => if intPart.isEmpty then none else some ((digitsToNat intPart : ℚ))
  | '.' :: frac =>
    if frac.all Char.isDigit && (!intPart.isEmpty || !frac.isEmpty) then
      some ((digitsToNat intPart : ℚ) + (digitsToNat frac : ℚ) / (10 ^ frac.length))
    else none
  | _ => none

/-- Model of Python float(s) on the decimal forms the monitored tools
produce; returns none where Python raises ValueError. -/
def parseFloat (s : Str) : Option ℚ :=
  let s := pyStrip s
  match s with
  | '-' :: rest => (parseUFloat rest).map (fun q => -q)
  | '+' :: rest => parseUFloat rest
  | _ => parseUFloat s

/-- Decimal digits of a natural number, fuel-bounded (fuel = n + 1). -/
def natDigitsAux : Nat → Nat → Str
  | 0, _ => []
  | fuel + 1, n =>
    if n < 10 then [Char.ofNat (48 + n)]
    else natDigitsAux fuel (n / 10) ++ [Char.ofNat (48 + n % 10)]

/-- Decimal rendering of a natural number. -/
def natRepr (n : Nat) : String := String.mk (natDigitsAux (n + 1) n)

/-- Decimal rendering of an integer. -/
def intRepr (n : Int) : String :=
  if n < 0 then "-" ++ natRepr n.natAbs else natRepr n.natAbs

/-- Rendering of a rational; stand-in for Python float repr (no claim
inspects the digits of a float cell). -/
def ratRepr (q : ℚ) : String := intRepr q.num ++ "/" ++ natRepr q.den

/-- Model of Python sep.join(list). -/
def strJoin (sep : Str) : List Str → Str
  | [] => []
  | [x] => x
  | x :: y :: rest => x ++ sep ++ strJoin sep (y :: rest)

/-- The last n elements of a list: the contents of a deque with maxlen n
after clear() and extend(l). -/
def lastN (n : Nat) (l : List α) : List α := l.drop (l.length - n)

/-- Helper for pyReadlines: accumulate the current line in reverse. -/
def readlinesAux : Str → Str → List Str
  | [], acc => if acc.isEmpty then [] else [acc.reverse]
  | c :: cs, acc =>
    if c == '\n' then (acc.reverse ++ ['\n']) :: readlinesAux cs []
    else readlinesAux cs (c :: acc)

/-- Model of Python file.readlines(): split into lines, each keeping its
trailing newline, with no empty final line. -/
def pyReadlines (l : Str) : List Str := readlinesAux l []

/-- A scalar value stored in a metric record: Python str, bool, int or
float (floats as rationals). -/
inductive Value
  | str (s : String)
  | bool (b : Bool)
  | int (n : Int)
  | rat (q : ℚ)
deriving Repr, DecidableEq

/-- A metric record: the Python dicts the probes return and the sampler
merges, as association lists built by dict-style insertion. -/
abbrev Record := List (String × Value)

/-- Model of dict lookup d[k] (records built by dset keep keys unique). -/
def dget : Record → String → Option Value
  | [], _ => none
  | (k1, v) :: d, k => if k == k1 then some v else dget d k

/-- Replace every binding of a key by a new value, keeping positions. -/
def replaceAll : Record → String → Value → Record
  | [], _, _ => []
  | (k1, w) :: d, k, v => (bif k == k1 then (k, v) else (k1, w)) :: replaceAll d k v

/-- Model of dict assignment d[k] = v: replace in place if the key exists,
otherwise append. -/
def dset (r : Record) (k : String) (v : Value) : Record :=
  if (dget r k).isSome then replaceAll r k v else r ++ [(k, v)]

/-- Model of dict.update: fold dict assignment over the update list. -/
def dictUpdate (r : Record) (d : Record) : Record :=
  d.foldl (fun acc p => dset acc p.1 p.2) r

/-- Last binding of a key in an update list (dict.update last-writer-wins). -/
def dgetLast : Record → String → Option Value
  | [], _ => none
  | (k1, v) :: d, k =>
    match dgetLast d k with
    | some w => some w
    | none => if k == k1 then some v else none

/-- Model of Python str() on a record value, as written into a CSV cell. -/
def pyStrV : Value → String
  | .str s => s
  | .bool b => if b then "True" else "False"
  | .int n => intRepr n
  | .rat q => ratRepr q

/-- Model of csv.DictWriter.writerow with extrasaction=ignore and the
default empty restval: one cell per schema field, in schema order; a field
missing from the record serializes as the empty cell. -/
def serializeRow (headers : List String) (row : Record) : List String :=
  headers.map (fun h => match dget row h with | some v => pyStrV v | none => "")

/-- CSV_HEADERS from the source: the fixed column schema. -/
def CSV_HEADERS : List String :=
  ["timestamp", "check_duration_ms",
   "throttled_hex", "throttled_alarm", "ue_now", "freq_cap_now", "throt_now", "soft_temp_now",
   "core_voltage", "cpu_temp", "temp_warning",
   "cpu_usage", "cpu_saturation", "ram_used_pct", "swap_used_mb", "mem_pressure", "load_1min", "load_5min",
   "max_latency_us", "latency_high",
   "usb_events", "log_errors", "notes"]

/-- TEMP_WARN_THRESHOLD from the source (75.0). -/
def TEMP_WARN_THRESHOLD : ℚ := 75

/-- LATENCY_WARN_US from the source (3000). -/
def LATENCY_WARN_US : Int := 3000

/-- CPU_LOAD_WARN_PERCENT from the source (85.0). -/
def CPU_LOAD_WARN_PERCENT : ℚ := 85

/-- MEM_SWAP_WARN_MB from the source (100). -/
def MEM_SWAP_WARN_MB : ℚ := 100

/-- THROT_MASK_UNDERVOLTAGE from the source (0x50005). -/
def THROT_MASK_UNDERVOLTAGE : Nat := 0x50005

/-- Result of subprocess.run on the success path: exit status and captured
standard output. -/
structure CmdResult where
  returncode : Int
  stdout : Str
deriving Repr, DecidableEq

/-- Does a ttyACM-digits-disconnect regex match start at the head of the
(lower-cased) string? -/
def ttyacmHere (l : Str) : Bool :=
  startsWithB ("ttyacm".toList) l &&
  (let r := l.drop 6
   let ds := r.takeWhile Char.isDigit
   !ds.isEmpty && startsWithB (" disconnect".toList) (r.drop ds.length))

/-- Search the whole (lower-cased) string for a ttyACM-digits-disconnect
match. -/
def ttyacmSearch : Str → Bool
  | [] => false
  | c :: cs => ttyacmHere (c :: cs) || ttyacmSearch cs

/-- The USBMonitor pattern list: does any of the four case-insensitive
patterns match the line? -/
def usbMatches (line : Str) : Bool :=
  let low := lowerStr line
  containsSub (lowerStr "usb disconnect".toList) low
  || containsSub (lowerStr "reset high-speed USB device".toList) low
  || ttyacmSearch low
  || containsSub (lowerStr "xHCI host controller not responding".toList) low

/-- One iteration of the USBMonitor.check line loop: strip the line, skip
empty lines, skip lines still in the retained deque, collect pattern
matches. -/
def usbFoldStep (last_seen : List Str) (acc : List Str) (line : Str) : List Str :=
  let line := pyStrip line
  if line.isEmpty then acc
  else if last_seen.contains line then acc
  else if usbMatches line then acc ++ [line] else acc

/-- USBMonitor.check on an already-split line list: returns the optional
result record and the new retained deque (maxlen 20, cleared and extended
with the full current line list). -/
def usbCheckLines (last_seen : List Str) (current_lines : List Str) :
    Option Record × List Str :=
  let new_events := current_lines.foldl (usbFoldStep last_seen) []
  let new_state := lastN 20 current_lines
  ((if !new_events.isEmpty then
      some [("usb_events", Value.str (String.mk (strJoin ("; ".toList) new_events)))]
    else none),
   new_state)

/-- USBMonitor.check: the kernel-message subprocess either raises (the
except branch returns an error-note record, state untouched) or yields
output that is stripped and split into lines. -/
def usbCheck (last_seen : List Str) (res : Except String CmdResult) :
    Option Record × List Str :=
  match res with
  | .error msg => (some [("usb_events", Value.str ("Error: " ++ msg))], last_seen)
  | .ok r => usbCheckLines last_seen (splitChar '\n' (pyStrip r.stdout))

/-- PowerMonitor.check, throttle-state query: Except.error carries the
data accumulated when a statement raises (caught by the outer except);
Except.ok continues to the next query. -/
def powerThrottle (res : Except Unit CmdResult) (data : Record) :
    Except Record Record :=
  match res with
  | .error _ => .error data
  | .ok r =>
    if r.returncode == 0 then
      match (splitChar '=' (pyStrip r.stdout)).get? 1 with
      | none => .error data
      | some val_str =>
        match parseHexNat val_str with
        | none => .error data
        | some val_int =>
          let data := dset data "throttled_hex" (.str (String.mk val_str))
          if val_int != 0 then
            let data := dset data "throttled_alarm" (.bool true)
            let data := if val_int &&& 0x1 != 0 then dset data "ue_now" (.bool true) else data
            let data := if val_int &&& 0x2 != 0 then dset data "freq_cap_now" (.bool true) else data
            let data := if val_int &&& 0x4 != 0 then dset data "throt_now" (.bool true) else data
            let data := if val_int &&& 0x8 != 0 then dset data "soft_temp_now" (.bool true) else data
            .ok data
          else .ok data
    else .ok data

/-- PowerMonitor.check, core-voltage query. -/
def powerVolt (res : Except Unit CmdResult) (data : Record) :
    Except Record Record :=
  match res with
  | .error _ => .error data
  | .ok r =>
    if r.returncode == 0 then
      match (splitChar '=' (pyStrip r.stdout)).get? 1 with
      | none => .error data
      | some s =>
        match parseFloat (removeSub ("V".toList) s) with
        | none => .error data
        | some v => .ok (dset data "core_voltage" (.rat v))
    else .ok data

/-- PowerMonitor.check, core-temperature query. -/
def powerTemp (res : Except Unit CmdResult) (data : Record) :
    Except Record Record :=
  match res with
  | .error _ => .error data
  | .ok r =>
    if r.returncode == 0 then
      match (splitChar '=' (pyStrip r.stdout)).get? 1 with
      | none => .error data
      | some s =>
        match parseFloat (removeSub ("'C".toList) s) with
        | none => .error data
        | some tv =>
          let data := dset data "cpu_temp" (.rat tv)
          .ok (if tv > TEMP_WARN_THRESHOLD then dset data "temp_warning" (.bool true) else data)
    else .ok data

/-- PowerMonitor.check: the three queries run inside one try; an exception
in any of them (Except.error) aborts the rest and the except branch
returns the data accumulated so far. -/
def powerCheck (t v c : Except Unit CmdResult) : Record :=
  match powerThrottle t [] with
  | .error d => d
  | .ok d =>
    match powerVolt v d with
    | .error d1 => d1
    | .ok d1 =>
      match powerTemp c d1 with
      | .error d2 => d2
      | .ok d2 => d2

/-- The readings of the richer psutil capability for one cycle. -/
structure PsutilStats where
  cpu_percent : ℚ
  ram_percent : ℚ
  swap_used : ℚ
deriving Repr, DecidableEq

/-- The collaborator environment of SystemMonitor.check: psutil mode (the
module imported at construction) or loadavg fallback; Except.error means
the collaborator call raises. -/
inductive SysEnv
  | psutil (stats : Except Unit PsutilStats)
  | fallback (loadavg : Except Unit (ℚ × ℚ))

/-- Round-half-to-even on rationals, the tie rule of Python round(). -/
def roundHalfEven (q : ℚ) : ℤ :=
  if q - ⌊q⌋ < 1/2 then ⌊q⌋
  else if q - ⌊q⌋ > 1/2 then ⌊q⌋ + 1
  else if ⌊q⌋ % 2 = 0 then ⌊q⌋ else ⌊q⌋ + 1

/-- Model of Python round(x, 2). -/
def pyRound2 (q : ℚ) : ℚ := (roundHalfEven (q * 100) : ℚ) / 100

/-- SystemMonitor.check: no try/except in the source, so a raising
collaborator propagates (Except.error). -/
def systemCheck : SysEnv → Except Unit Record
  | .psutil (.error e) => .error e
  | .psutil (.ok st) =>
    let data := dset [] "cpu_usage" (Value.rat st.cpu_percent)
    let data := if st.cpu_percent > CPU_LOAD_WARN_PERCENT then dset data "cpu_saturation" (.bool true) else data
    let data := dset data "ram_used_pct" (Value.rat st.ram_percent)
    let swapMB := pyRound2 (st.swap_used / (1024 * 1024))
    let data := dset data "swap_used_mb" (Value.rat swapMB)
    let data := if swapMB > MEM_SWAP_WARN_MB then dset data "mem_pressure" (.bool true) else data
    .ok data
  | .fallback (.error e) => .error e
  | .fallback (.ok l) => .ok (dset (dset [] "load_1min" (Value.rat l.1)) "load_5min" (Value.rat l.2))

/-- Does the regex Max-colon-whitespace-digits match at the head of the
string?  Returns the captured integer. -/
def maxHere (l : Str) : Option Nat :=
  if startsWithB ("Max:".toList) l then
    let r := (l.drop 4).dropWhile isPyWS
    let ds := r.takeWhile Char.isDigit
    if ds.isEmpty then none else some (digitsToNat ds)
  else none

/-- re.search for the Max-colon pattern: leftmost match wins. -/
def reSearchMax : Str → Option Nat
  | [] => none
  | c :: cs =>
    match maxHere (c :: cs) with
    | some n => some n
    | none => reSearchMax cs

/-- LatencyMonitor.check: a raising or failing cyclictest invocation, a
non-zero exit, or unparsable output all yield none. -/
def latencyCheck (res : Except Unit CmdResult) : Option Record :=
  match res with
  | .error _ => none
  | .ok r =>
    if r.returncode == 0 then
      match reSearchMax r.stdout with
      | some max_lat =>
        some [("max_latency_us", Value.int (max_lat : Int)),
              ("latency_high", Value.bool (decide ((max_lat : Int) > LATENCY_WARN_US)))]
      | none => none
    else none

/-- Search for the MCU-quote-anything-quote-shutdown regex continuation:
a quote-space-shutdown literal reachable without crossing a newline (the
regex dot does not match newlines). -/
def mcuAfter : Str → Bool
  | [] => false
  | c :: cs => startsWithB ("' shutdown".toList) (c :: cs) || (c != '\n' && mcuAfter cs)

/-- Search the line for the MCU-shutdown pattern of LogMonitor. -/
def mcuSearch : Str → Bool
  | [] => false
  | c :: cs =>
    (startsWithB ("MCU '".toList) (c :: cs) && mcuAfter ((c :: cs).drop 5))
    || mcuSearch cs

/-- The LogMonitor pattern dict applied to one line, in insertion order;
each hit emits key-colon-space plus the stripped line truncated to 60
characters (a line can hit several patterns). -/
def logPatternHits (line : Str) : List Str :=
  (if containsSub ("Timer too close".toList) line then
     ["timer_close: ".toList ++ (pyStrip line).take 60] else [])
  ++ (if mcuSearch line then
     ["mcu_shutdown: ".toList ++ (pyStrip line).take 60] else [])
  ++ (if containsSub ("Timeout on serial communication".toList) line then
     ["lost_comm: ".toList ++ (pyStrip line).take 60] else [])

/-- Observable outcome of one LogMonitor.check call: the returned optional
record, the retained byte offset after the call, and the byte segment the
call actually read (empty when nothing was read). -/
structure LogCheckResult where
  result : Option Record
  new_pos : Nat
  bytesRead : Str
deriving Repr, DecidableEq

/-- LogMonitor.check: file is the log contents when the file exists;
ioFail models the getsize call raising (caught by the except, offset
untouched).  On shrink the offset resets to zero; new bytes are read from
the offset to the end and the offset advances to the end. -/
def logCheck (file_pos : Nat) (file : Option Str) (ioFail : Bool) : LogCheckResult :=
  match file with
  | none => ⟨none, file_pos, []⟩
  | some contents =>
    if ioFail then ⟨none, file_pos, []⟩
    else
      let current_size := contents.length
      let pos := if current_size < file_pos then 0 else file_pos
      if current_size > pos then
        let new_bytes := contents.drop pos
        let new_lines := pyReadlines new_bytes
        let errors := new_lines.foldl (fun acc line => acc ++ logPatternHits line) []
        let data : Record :=
          if !errors.isEmpty then
            [("log_errors", Value.str (String.mk (strJoin ("; ".toList) errors)))]
          else []
        ⟨if !data.isEmpty then some data else none, current_size, new_bytes⟩
      else ⟨none, pos, []⟩

/-- Observable outcome of one CSVLogger.log call: the row written to each
sink (none when that write did not happen) and the console lines printed. -/
structure LogOutcome where
  primaryRow : Option (List String)
  backupRow : Option (List String)
  console : List String
deriving Repr, DecidableEq

/-- CSVLogger.log: build the row dict (timestamp taken now, at write time,
then updated with the cycle data), then one try covering the primary
write-flush-fsync and, if a mirror is configured, the mirror write-flush;
the except prints and returns.  primaryFails and backupFails model the
respective writes raising. -/
def csvLog (ts : String) (data : Record)
    (primaryFails hasBackup backupFails : Bool) : LogOutcome :=
  let row := dictUpdate [("timestamp", Value.str ts)] data
  let attempt : Except LogOutcome LogOutcome :=
    if primaryFails then .error ⟨none, none, []⟩
    else
      let o : LogOutcome := ⟨some (serializeRow CSV_HEADERS row), none, []⟩
      if hasBackup then
        if backupFails then .error o
        else .ok { o with backupRow := some (serializeRow CSV_HEADERS row) }
      else .ok o
  match attempt with
  | .ok o => o
  | .error o => { o with console := o.console ++ ["Logging failed"] }

/-- Rendering of the wall clock (a tick counter) as a timestamp text:
model of datetime.now().isoformat() at tick n. -/
def tsOfTick (n : Nat) : String := natRepr n

/-- One iteration of the main loop, with an explicit clock: t0 is the
cycle-start reading of time.time(), probeElapsed the ticks the probes
consume, logDelay the ticks between the duration computation and the
datetime.now() call inside CSVLogger.log.  check_duration_ms is set from
the elapsed probe time; the timestamp CSVLogger writes is the clock at
write time. -/
def runCycle (t0 probeElapsed logDelay : Nat) (probeData : Record)
    (primaryFails hasBackup backupFails : Bool) : LogOutcome :=
  let duration := probeElapsed
  let current_data := dset probeData "check_duration_ms" (Value.int (duration : Int))
  csvLog (tsOfTick (t0 + probeElapsed + logDelay)) current_data
    primaryFails hasBackup backupFails


/-! ## Lemmas about the record (dict) model -/

theorem dget_replaceAll_self (d : Record) (k : String) (v : Value)
    (h : (dget d k).isSome) : dget (replaceAll d k v) k = some v := by
  induction d with
  | nil => simp [dget] at h
  | cons p d ih =>
    obtain ⟨k1, w⟩ := p
    by_cases hk : k == k1
    · simp [replaceAll, dget, hk]
    · have h1 : (dget d k).isSome := by simpa [dget, hk] using h
      simpa [replaceAll, dget, hk] using ih h1

theorem dget_replaceAll_ne (d : Record) (k kt : String) (v : Value) (h : ¬ k = kt) :
    dget (replaceAll d kt v) k = dget d k := by
  induction d with
  | nil => rfl
  | cons p d ih =>
    obtain ⟨k1, w⟩ := p
    by_cases hk : kt == k1
    · have e : kt = k1 := by simpa using hk
      subst e
      have hf : (k == kt) = false := by simpa using h
      simpa [replaceAll, dget, hf] using ih
    · by_cases hk2 : k == k1
      · simp [replaceAll, dget, hk, hk2]
      · simpa [replaceAll, dget, hk, hk2] using ih

theorem dget_replaceAll_none (d : Record) (k : String) (v : Value)
    (h : dget d k = none) : dget (replaceAll d k v) k = none := by
  induction d with
  | nil => rfl
  | cons p d ih =>
    obtain ⟨k1, w⟩ := p
    by_cases hk : k == k1
    · simp [dget, hk] at h
    · have h1 : dget d k = none := by simpa [dget, hk] using h
      simpa [replaceAll, dget, hk] using ih h1

theorem dget_append_single (d : Record) (k : String) (v : Value)
    (h : dget d k = none) : dget (d ++ [(k, v)]) k = some v := by
  induction d with
  | nil => simp [dget]
  | cons p d ih =>
    obtain ⟨k1, w⟩ := p
    by_cases hk : k == k1
    · simp [dget, hk] at h
    · have h1 : dget d k = none := by simpa [dget, hk] using h
      simpa [dget, hk] using ih h1

theorem dget_append_single_ne (d : Record) (k kt : String) (v : Value) (h : ¬ k = kt) :
    dget (d ++ [(kt, v)]) k = dget d k := by
  induction d with
  | nil =>
    have hf : (k == kt) = false := by simpa using h
    simp [dget, hf]
  | cons p d ih =>
    obtain ⟨k1, w⟩ := p
    by_cases hk : k == k1
    · simp [dget, hk]
    · simpa [dget, hk] using ih

theorem dget_dset_self (d : Record) (k : String) (v : Value) :
    dget (dset d k v) k = some v := by
  unfold dset
  by_cases h : (dget d k).isSome
  · rw [if_pos h]; exact dget_replaceAll_self d k v h
  · rw [if_neg h]
    apply dget_append_single
    exact Option.not_isSome_iff_eq_none.mp h

theorem dget_dset_ne (d : Record) (k kt : String) (v : Value) (h : ¬ k = kt) :
    dget (dset d kt v) k = dget d k := by
  unfold dset
  by_cases hs : (dget d kt).isSome
  · rw [if_pos hs]; exact dget_replaceAll_ne d k kt v h
  · rw [if_neg hs]; exact dget_append_single_ne d k kt v h

theorem dgetLast_eq_none (d : Record) (k : String) (h : dget d k = none) :
    dgetLast d k = none := by
  induction d with
  | nil => rfl
  | cons p d ih =>
    obtain ⟨k1, w⟩ := p
    by_cases hk : k == k1
    · simp [dget, hk] at h
    · have h1 : dget d k = none := by simpa [dget, hk] using h
      simp [dgetLast, ih h1, hk]

theorem dgetLast_append_single (d : Record) (k : String) (v : Value) :
    dgetLast (d ++ [(k, v)]) k = some v := by
  induction d with
  | nil => simp [dgetLast]
  | cons p d ih =>
    obtain ⟨k1, w⟩ := p
    simp [dgetLast, ih]

theorem dgetLast_replaceAll_self (d : Record) (k : String) (v : Value)
    (h : (dget d k).isSome) : dgetLast (replaceAll d k v) k = some v := by
  induction d with
  | nil => simp [dget] at h
  | cons p d ih =>
    obtain ⟨k1, w⟩ := p
    by_cases hd : (dget d k).isSome
    · simp [replaceAll, dgetLast, ih hd]
    · have hdn : dget d k = none := Option.not_isSome_iff_eq_none.mp hd
      have hk : (k == k1) = true := by
        by_cases hk : (k == k1) = true
        · exact hk
        · simp [dget, hk, hdn] at h
      have tailNone : dgetLast (replaceAll d k v) k = none :=
        dgetLast_eq_none _ _ (dget_replaceAll_none d k v hdn)
      simp [replaceAll, dgetLast, hk, tailNone]

theorem dgetLast_dset_self (d : Record) (k : String) (v : Value) :
    dgetLast (dset d k v) k = some v := by
  unfold dset
  by_cases h : (dget d k).isSome
  · rw [if_pos h]; exact dgetLast_replaceAll_self d k v h
  · rw [if_neg h]; exact dgetLast_append_single d k v

theorem dget_dictUpdate (r d : Record) (k : String) :
    dget (dictUpdate r d) k =
      match dgetLast d k with
      | some w => some w
      | none => dget r k := by
  induction d generalizing r with
  | nil => rfl
  | cons p d ih =>
    obtain ⟨k1, v1⟩ := p
    show dget (dictUpdate (dset r k1 v1) d) k = _
    rw [ih]
    cases h : dgetLast d k with
    | some w => simp [dgetLast, h]
    | none =>
      by_cases hk : k = k1
      · subst hk
        simp [dgetLast, h, dget_dset_self]
      · have hkb : (k == k1) = false := by simpa using hk
        simp [dgetLast, h, hkb, dget_dset_ne r k k1 v1 hk]


/-! ## Claim C2: probe failure containment -/

/-- C2 counterexample: the claim says every probe's check never raises past
its own boundary, in particular the resource-usage probe in its
load-average fallback mode; but SystemMonitor.check has no try/except, so
a raising os.getloadavg propagates out of check. -/
theorem C2_counterexample : systemCheck (.fallback (.error ())) = .error () := rfl

/-- C2 (amended): the bus-error, power/thermal, scheduling-latency and
firmware-log-tail probes convert collaborator failures (raising call,
non-zero exit, absent file, I/O error) into an error-note record, an empty
record, none, or an unchanged-offset empty result, never raising; the
resource-usage probe instead propagates a raising collaborator in either
mode (the sampler catches it one level up). -/
theorem C2_probe_error_containment :
    (∀ (st : List Str) (msg : String),
       usbCheck st (.error msg) = (some [("usb_events", Value.str ("Error: " ++ msg))], st))
    ∧ (powerCheck (.error ()) (.error ()) (.error ()) = [])
    ∧ (latencyCheck (.error ()) = none)
    ∧ (∀ s : Str, latencyCheck (.ok ⟨1, s⟩) = none)
    ∧ (∀ (pos : Nat) (iof : Bool), logCheck pos none iof = ⟨none, pos, []⟩)
    ∧ (∀ (pos : Nat) (contents : Str), logCheck pos (some contents) true = ⟨none, pos, []⟩)
    ∧ (systemCheck (.psutil (.error ())) = .error ())
    ∧ (systemCheck (.fallback (.error ())) = .error ()) :=
  ⟨fun _ _ => rfl, rfl, rfl, fun _ => rfl, fun _ _ => rfl, fun _ _ => rfl, rfl, rfl⟩

/-! ## Claim C3: sink-write failure behaviour of CSVLogger.log -/

/-- C3 counterexample: with a configured, working mirror sink, a failing
primary write makes log skip the mirror write entirely (the claim says the
other sink's write is still attempted). -/
theorem C3_counterexample :
    ((csvLog "t" [] true true false).backupRow = none)
    ∧ ((csvLog "t" [] true true false).console = ["Logging failed"]) :=
  ⟨rfl, rfl⟩

/-- C3 (amended): log never raises and reports a sink-write failure on the
console; a mirror-sink failure leaves the already-completed primary write
intact; but a primary-sink failure skips the mirror write instead of still
attempting it. -/
theorem C3_sink_failure_containment (ts : String) (data : Record) (hb : Bool) :
    ((csvLog ts data false hb true).primaryRow
        = some (serializeRow CSV_HEADERS (dictUpdate [("timestamp", Value.str ts)] data)))
    ∧ ((csvLog ts data false true true).console = ["Logging failed"])
    ∧ ((csvLog ts data true hb false).backupRow = none)
    ∧ ((csvLog ts data true hb false).console = ["Logging failed"]) := by
  cases hb <;> exact ⟨rfl, rfl, rfl, rfl⟩

/-! ## Claim C7: log rotation and absent file -/

/-- C7: when the firmware log shrinks below the retained offset,
LogMonitor.check resets the offset to zero and the read of that very cycle
scans the whole file from the beginning (the offset then sits at the new
end); when the file is absent, check yields nothing and leaves the offset
unchanged. -/
theorem C7_rotation_reset (pos : Nat) (c : Str) (h : c.length < pos) :
    ((logCheck pos (some c) false).new_pos = c.length
      ∧ (logCheck pos (some c) false).bytesRead = c)
    ∧ (∀ (p : Nat) (iof : Bool), logCheck p none iof = ⟨none, p, []⟩) := by
  refine ⟨?_, fun p iof => rfl⟩
  by_cases hc : 0 < c.length
  · constructor <;> simp [logCheck, h, hc]
  · have hc0 : c = [] := by
      cases c with
      | nil => rfl
      | cons a l => simp at hc
    subst hc0
    constructor <;> simp [logCheck, h]

/-- C7 witness. -/
theorem C7_rotation_reset_w :
    (("ab".toList.length < 5)
      ∧ (((logCheck 5 (some "ab".toList) false).new_pos = "ab".toList.length
          ∧ (logCheck 5 (some "ab".toList) false).bytesRead = "ab".toList)
         ∧ (∀ (p : Nat) (iof : Bool), logCheck p none iof = ⟨none, p, []⟩))) :=
  ⟨by decide, C7_rotation_reset 5 "ab".toList (by decide)⟩

/-! ## Claim C9: offset advance and scan-once -/

/-- C9: when the file has grown past the retained offset, the offset
advances to the end of the bytes just read whether or not any line
matches, and the next cycle on a further-grown file reads only the newly
appended suffix, so no byte is scanned twice absent rotation. -/
theorem C9_offset_advance (pos : Nat) (c s : Str) (h : pos < c.length) (hs : s ≠ []) :
    ((logCheck pos (some c) false).new_pos = c.length)
    ∧ ((logCheck pos (some c) false).bytesRead = c.drop pos)
    ∧ ((logCheck c.length (some (c ++ s)) false).bytesRead = s)
    ∧ ((logCheck c.length (some (c ++ s)) false).new_pos = c.length + s.length) := by
  have h1 : ¬ c.length < pos := Nat.not_lt.mpr (Nat.le_of_lt h)
  have h2 : ¬ (c ++ s).length < c.length := by
    rw [List.length_append]
    omega
  have h3 : c.length < (c ++ s).length := by
    rw [List.length_append]
    have := List.length_pos.mpr hs
    omega
  have h4 : 0 < s.length := List.length_pos.mpr hs
  refine ⟨?_, ?_, ?_, ?_⟩
  · simp [logCheck, h1, h]
  · simp [logCheck, h1, h]
  · simp [logCheck, h2, h3, h4, List.drop_left]
  · simp [logCheck, h2, h3, h4, List.length_append]

/-- C9 witness. -/
theorem C9_offset_advance_w :
    ((1 < "ab".toList.length) ∧ ("c".toList ≠ []))
    ∧ (((logCheck 1 (some "ab".toList) false).new_pos = "ab".toList.length)
       ∧ ((logCheck 1 (some "ab".toList) false).bytesRead = "ab".toList.drop 1)
       ∧ ((logCheck "ab".toList.length (some ("ab".toList ++ "c".toList)) false).bytesRead = "c".toList)
       ∧ ((logCheck "ab".toList.length (some ("ab".toList ++ "c".toList)) false).new_pos
            = "ab".toList.length + "c".toList.length)) :=
  ⟨⟨by decide, by decide⟩, C9_offset_advance 1 "ab".toList "c".toList (by decide) (by decide)⟩

/-! ## Claim C10: scheduling-latency result shape -/

/-- C10: whenever LatencyMonitor.check returns a record, it contains both
max_latency_us and latency_high, with latency_high equal to the comparison
of the maximum against the 3000 microsecond threshold, and explicitly
false when the maximum is at or below it. -/
theorem C10_latency_flags (res : Except Unit CmdResult) (r : Record)
    (h : latencyCheck res = some r) :
    ∃ n : Nat, dget r "max_latency_us" = some (Value.int (n : Int))
      ∧ dget r "latency_high" = some (Value.bool (decide ((n : Int) > LATENCY_WARN_US)))
      ∧ (((n : Int) ≤ LATENCY_WARN_US) → dget r "latency_high" = some (Value.bool false)) := by
  cases res with
  | error e => simp [latencyCheck] at h
  | ok cr =>
    simp only [latencyCheck] at h
    by_cases hc : (cr.returncode == 0) = true
    · rw [if_pos hc] at h
      cases hm : reSearchMax cr.stdout with
      | none => rw [hm] at h; simp at h
      | some n =>
        rw [hm] at h
        injection h with h
        subst h
        refine ⟨n, by simp [dget], by simp [dget], fun hle => ?_⟩
        have : decide ((n : Int) > LATENCY_WARN_US) = false :=
          decide_eq_false (not_lt.mpr hle)
        simp [dget, this]
    · rw [if_neg hc] at h
      simp at h

/-- C10 witness. -/
theorem C10_latency_flags_w :
    ∃ n : Nat,
      dget [("max_latency_us", Value.int ((120 : Nat) : Int)),
            ("latency_high", Value.bool (decide (((120 : Nat) : Int) > LATENCY_WARN_US)))]
          "max_latency_us" = some (Value.int (n : Int))
      ∧ dget [("max_latency_us", Value.int ((120 : Nat) : Int)),
              ("latency_high", Value.bool (decide (((120 : Nat) : Int) > LATENCY_WARN_US)))]
          "latency_high" = some (Value.bool (decide ((n : Int) > LATENCY_WARN_US)))
      ∧ (((n : Int) ≤ LATENCY_WARN_US) →
          dget [("max_latency_us", Value.int ((120 : Nat) : Int)),
                ("latency_high", Value.bool (decide (((120 : Nat) : Int) > LATENCY_WARN_US)))]
            "latency_high" = some (Value.bool false)) :=
  C10_latency_flags (.ok ⟨0, "# Min: 2 Avg: 10 Max: 120".toList⟩) _ (by decide)


/-! ## PowerMonitor stage lemmas -/

theorem powerVolt_cases (v : Except Unit CmdResult) (d : Record) :
    powerVolt v d = .error d
    ∨ (∃ d2, powerVolt v d = .ok d2
        ∧ ∀ (k : String), ¬ k = "core_voltage" → dget d2 k = dget d k) := by
  cases v with
  | error e => exact Or.inl rfl
  | ok r =>
    simp only [powerVolt]
    by_cases hc : (r.returncode == 0) = true
    · rw [if_pos hc]
      cases hg : (splitChar '=' (pyStrip r.stdout)).get? 1 with
      | none => exact Or.inl rfl
      | some str1 =>
        cases hp : parseFloat (removeSub ("V".toList) str1) with
        | none =>
          refine Or.inl ?_
          show (match parseFloat (removeSub ("V".toList) str1) with
                | none => Except.error d
                | some v => Except.ok (dset d "core_voltage" (Value.rat v))) = Except.error d
          rw [hp]
        | some q =>
          refine Or.inr ⟨dset d "core_voltage" (.rat q), ?_,
            fun k hk => dget_dset_ne d k "core_voltage" (.rat q) hk⟩
          show (match parseFloat (removeSub ("V".toList) str1) with
                | none => Except.error d
                | some v => Except.ok (dset d "core_voltage" (Value.rat v)))
              = Except.ok (dset d "core_voltage" (Value.rat q))
          rw [hp]
    · rw [if_neg hc]
      exact Or.inr ⟨d, rfl, fun k _ => rfl⟩

theorem powerTemp_cases (c : Except Unit CmdResult) (d : Record) :
    powerTemp c d = .error d
    ∨ (∃ d2, powerTemp c d = .ok d2
        ∧ ∀ (k : String), ¬ k = "cpu_temp" → ¬ k = "temp_warning" → dget d2 k = dget d k) := by
  cases c with
  | error e => exact Or.inl rfl
  | ok r =>
    simp only [powerTemp]
    by_cases hc : (r.returncode == 0) = true
    · rw [if_pos hc]
      cases hg : (splitChar '=' (pyStrip r.stdout)).get? 1 with
      | none => exact Or.inl rfl
      | some str1 =>
        cases hp : parseFloat (removeSub ("'C".toList) str1) with
        | none =>
          refine Or.inl ?_
          show (match parseFloat (removeSub ("'C".toList) str1) with
                | none => Except.error d
                | some tv => Except.ok (if tv > TEMP_WARN_THRESHOLD then
                    dset (dset d "cpu_temp" (Value.rat tv)) "temp_warning" (Value.bool true)
                  else dset d "cpu_temp" (Value.rat tv))) = Except.error d
          rw [hp]
        | some q =>
          by_cases hw : q > TEMP_WARN_THRESHOLD
          · refine Or.inr ⟨dset (dset d "cpu_temp" (.rat q)) "temp_warning" (.bool true),
              ?_, fun k hk1 hk2 => ?_⟩
            · show (match parseFloat (removeSub ("'C".toList) str1) with
                    | none => Except.error d
                    | some tv => Except.ok (if tv > TEMP_WARN_THRESHOLD then
                        dset (dset d "cpu_temp" (Value.rat tv)) "temp_warning" (Value.bool true)
                      else dset d "cpu_temp" (Value.rat tv)))
                  = Except.ok (dset (dset d "cpu_temp" (Value.rat q)) "temp_warning" (Value.bool true))
              simp only [hp]
              rw [if_pos hw]
            · rw [dget_dset_ne _ k "temp_warning" _ hk2]
              exact dget_dset_ne d k "cpu_temp" _ hk1
          · refine Or.inr ⟨dset d "cpu_temp" (.rat q), ?_,
              fun k hk1 _ => dget_dset_ne d k "cpu_temp" _ hk1⟩
            show (match parseFloat (removeSub ("'C".toList) str1) with
                  | none => Except.error d
                  | some tv => Except.ok (if tv > TEMP_WARN_THRESHOLD then
                      dset (dset d "cpu_temp" (Value.rat tv)) "temp_warning" (Value.bool true)
                    else dset d "cpu_temp" (Value.rat tv)))
                = Except.ok (dset d "cpu_temp" (Value.rat q))
            simp only [hp]
            rw [if_neg hw]
    · rw [if_neg hc]
      exact Or.inr ⟨d, rfl, fun k _ _ => rfl⟩

theorem powerCheck_throttle_stable (t v c : Except Unit CmdResult) (D : Record)
    (ht : powerThrottle t [] = .ok D) (k : String)
    (h1 : ¬ k = "core_voltage") (h2 : ¬ k = "cpu_temp") (h3 : ¬ k = "temp_warning") :
    dget (powerCheck t v c) k = dget D k := by
  unfold powerCheck
  rw [ht]
  show dget (match powerVolt v D with
       | .error d1 => d1
       | .ok d1 =>
         match powerTemp c d1 with
         | .error d2 => d2
         | .ok d2 => d2) k = dget D k
  rcases powerVolt_cases v D with hv | ⟨d2, hv, hpr⟩
  · rw [hv]
  · rw [hv]
    show dget (match powerTemp c d2 with
         | .error d3 => d3
         | .ok d3 => d3) k = dget D k
    rcases powerTemp_cases c d2 with hc2 | ⟨d3, hc2, hpr2⟩
    · rw [hc2]
      exact hpr k h1
    · rw [hc2]
      rw [hpr2 k h2 h3]
      exact hpr k h1

/-! ## Claim C1: decoding of throttle mask 0x50005 -/

/-- C1 counterexample: the claim says mask 0x50005 yields soft_temp_now
true and throt_now absent/false; the code decodes bit 2 (set in 0x5) as
throt_now and bit 3 (clear) as soft_temp_now, so the record has throt_now
true and no soft_temp_now at all. -/
theorem C1_counterexample :
    (dget (powerCheck (.ok ⟨0, "throttled=0x50005".toList⟩) (.error ()) (.error ()))
        "soft_temp_now" = none)
    ∧ (dget (powerCheck (.ok ⟨0, "throttled=0x50005".toList⟩) (.error ()) (.error ()))
        "throt_now" = some (Value.bool true)) := by
  exact ⟨by decide, by decide⟩

/-- C1 (amended): for throttle output 0x50005 and any behaviour of the
voltage and temperature queries, the returned record has throttled_alarm,
ue_now and throt_now true (bits 0 and 2 of the low group are set) while
freq_cap_now and soft_temp_now are absent (bits 1 and 3 are clear). -/
theorem C1_throttle_bits (v c : Except Unit CmdResult) :
    (dget (powerCheck (.ok ⟨0, "throttled=0x50005".toList⟩) v c) "throttled_alarm"
        = some (Value.bool true))
    ∧ (dget (powerCheck (.ok ⟨0, "throttled=0x50005".toList⟩) v c) "ue_now"
        = some (Value.bool true))
    ∧ (dget (powerCheck (.ok ⟨0, "throttled=0x50005".toList⟩) v c) "throt_now"
        = some (Value.bool true))
    ∧ (dget (powerCheck (.ok ⟨0, "throttled=0x50005".toList⟩) v c) "freq_cap_now" = none)
    ∧ (dget (powerCheck (.ok ⟨0, "throttled=0x50005".toList⟩) v c) "soft_temp_now" = none) := by
  have ht : powerThrottle (.ok ⟨0, "throttled=0x50005".toList⟩) []
      = .ok [("throttled_hex", Value.str "0x50005"), ("throttled_alarm", Value.bool true),
             ("ue_now", Value.bool true), ("throt_now", Value.bool true)] := by rfl
  refine ⟨?_, ?_, ?_, ?_, ?_⟩ <;>
    rw [powerCheck_throttle_stable _ v c _ ht _ (by decide) (by decide) (by decide)] <;> rfl

/-! ## Claim C4: independence of the three power queries -/

/-- C4 counterexample: the claim says a failure raising while parsing one
query's output does not suppress the other two; but a throttle output with
no equals sign raises inside the single try, so the voltage and
temperature queries are skipped and both fields are absent, even though
the same voltage and temperature outputs parse fine when the throttle
query merely exits non-zero. -/
theorem C4_counterexample :
    (dget (powerCheck (.ok ⟨0, "garbage".toList⟩)
        (.ok ⟨0, "volt=1.2000V".toList⟩) (.ok ⟨0, "temp=42.8'C".toList⟩)) "core_voltage" = none)
    ∧ (dget (powerCheck (.ok ⟨0, "garbage".toList⟩)
        (.ok ⟨0, "volt=1.2000V".toList⟩) (.ok ⟨0, "temp=42.8'C".toList⟩)) "cpu_temp" = none)
    ∧ (dget (powerCheck (.ok ⟨1, []⟩)
        (.ok ⟨0, "volt=1.2000V".toList⟩) (.ok ⟨0, "temp=42.8'C".toList⟩)) "core_voltage"
        = some (Value.rat (6/5)))
    ∧ (dget (powerCheck (.ok ⟨1, []⟩)
        (.ok ⟨0, "volt=1.2000V".toList⟩) (.ok ⟨0, "temp=42.8'C".toList⟩)) "cpu_temp"
        = some (Value.rat (214/5))) := by
  refine ⟨by decide, by decide, by with_unfolding_all decide, by with_unfolding_all decide⟩

/-- C4 (amended): a query failing with a non-zero exit status contributes
nothing and does not suppress the other queries; but a query whose
handling raises aborts the remaining queries of that cycle, the record
keeping only the data accumulated before the raise. -/
theorem C4_query_isolation (v c : Except Unit CmdResult) (r : CmdResult)
    (hrc : r.returncode ≠ 0) :
    (powerCheck (.ok r) v c = powerCheck (.ok ⟨1, []⟩) v c)
    ∧ (∀ (t : Except Unit CmdResult) (d : Record),
        powerThrottle t [] = .error d → powerCheck t v c = d)
    ∧ (∀ (t : Except Unit CmdResult) (d d2 : Record),
        powerThrottle t [] = .ok d → powerVolt v d = .error d2 → powerCheck t v c = d2) := by
  refine ⟨?_, ?_, ?_⟩
  · have h1 : powerThrottle (.ok r) [] = .ok [] := by
      simp only [powerThrottle]
      rw [if_neg (by simpa using hrc)]
    have h2 : powerThrottle (.ok ⟨1, []⟩) [] = .ok ([] : Record) := rfl
    unfold powerCheck
    rw [h1, h2]
  · intro t d h
    unfold powerCheck
    rw [h]
  · intro t d d2 h1 h2
    unfold powerCheck
    rw [h1]
    show (match powerVolt v d with
          | .error d1 => d1
          | .ok d1 =>
            match powerTemp c d1 with
            | .error d3 => d3
            | .ok d3 => d3) = d2
    rw [h2]

/-- C4 witness. -/
theorem C4_query_isolation_w :
    ((1 : Int) ≠ 0)
    ∧ ((powerCheck (.ok ⟨1, "x".toList⟩) (.error ()) (.error ())
          = powerCheck (.ok ⟨1, []⟩) (.error ()) (.error ()))
       ∧ (∀ (t : Except Unit CmdResult) (d : Record),
           powerThrottle t [] = .error d → powerCheck t (.error ()) (.error ()) = d)
       ∧ (∀ (t : Except Unit CmdResult) (d d2 : Record),
           powerThrottle t [] = .ok d → powerVolt (.error ()) d = .error d2 →
             powerCheck t (.error ()) (.error ()) = d2)) :=
  ⟨by decide, C4_query_isolation (.error ()) (.error ()) ⟨1, "x".toList⟩ (by decide)⟩


/-- One cell of a serialized row: the schema name at position i looked up
in the record, empty when absent. -/
theorem serializeRow_cell (headers : List String) (row : Record) (i : Nat) (hname : String)
    (hh : headers[i]? = some hname) :
    (serializeRow headers row)[i]?
      = some (match dget row hname with | some v => pyStrV v | none => "") := by
  unfold serializeRow
  rw [List.getElem?_map, hh]
  rfl

/-! ## Claim C5: timestamp provenance -/

/-- C5 counterexample: with cycle start at tick 0 and probes consuming 5
ticks, the timestamp cell of the written row is the rendering of tick 6
(write time, after probes and the duration computation), not of tick 0
(the cycle start the claim requires). -/
theorem C5_counterexample :
    ((runCycle 0 5 1 [] false false false).primaryRow.map (fun cells => cells[0]?)
        = some (some (tsOfTick 6)))
    ∧ (tsOfTick 6 ≠ tsOfTick 0) :=
  ⟨by decide, by decide⟩

/-- C5 (amended): the timestamp in every written row is taken inside
CSVLogger.log at write time — cycle start plus probe time plus write delay
— not at cycle start; timestamp and check_duration_ms are nonetheless both
present in every written row (the hypothesis records that no probe emits a
timestamp field, which holds for all five probes). -/
theorem C5_timestamp_at_write_time (t0 pe ld : Nat) (pd : Record) (hb bf : Bool)
    (hts : dget pd "timestamp" = none) :
    ∃ cells, (runCycle t0 pe ld pd false hb bf).primaryRow = some cells
      ∧ cells[0]? = some (tsOfTick (t0 + pe + ld))
      ∧ cells[1]? = some (pyStrV (Value.int (pe : Int))) := by
  have hrow : (runCycle t0 pe ld pd false hb bf).primaryRow
      = some (serializeRow CSV_HEADERS
          (dictUpdate [("timestamp", Value.str (tsOfTick (t0 + pe + ld)))]
            (dset pd "check_duration_ms" (Value.int (pe : Int))))) := by
    unfold runCycle csvLog
    cases hb <;> cases bf <;> rfl
  have hts2 : dget (dset pd "check_duration_ms" (Value.int (pe : Int))) "timestamp" = none := by
    rw [dget_dset_ne _ _ _ _ (by decide)]
    exact hts
  have h0 : dget (dictUpdate [("timestamp", Value.str (tsOfTick (t0 + pe + ld)))]
      (dset pd "check_duration_ms" (Value.int (pe : Int)))) "timestamp"
      = some (Value.str (tsOfTick (t0 + pe + ld))) := by
    rw [dget_dictUpdate, dgetLast_eq_none _ _ hts2]
    rfl
  have h1 : dget (dictUpdate [("timestamp", Value.str (tsOfTick (t0 + pe + ld)))]
      (dset pd "check_duration_ms" (Value.int (pe : Int)))) "check_duration_ms"
      = some (Value.int (pe : Int)) := by
    rw [dget_dictUpdate, dgetLast_dset_self]
  refine ⟨_, hrow, ?_, ?_⟩
  · rw [serializeRow_cell CSV_HEADERS _ 0 "timestamp" rfl, h0]
    rfl
  · rw [serializeRow_cell CSV_HEADERS _ 1 "check_duration_ms" rfl, h1]

/-- C5 witness. -/
theorem C5_timestamp_at_write_time_w :
    (dget ([] : Record) "timestamp" = none)
    ∧ (∃ cells, (runCycle 2 3 4 [] false false false).primaryRow = some cells
        ∧ cells[0]? = some (tsOfTick (2 + 3 + 4))
        ∧ cells[1]? = some (pyStrV (Value.int ((3 : Nat) : Int)))) :=
  ⟨rfl, C5_timestamp_at_write_time 2 3 4 [] false false rfl⟩

/-! ## Claim C8: schema-driven row serialization -/

/-- C8: a serialized row has exactly one cell per schema column in schema
order; record fields outside the schema are dropped silently (adding one
does not change the row); schema fields absent from the record serialize
as empty cells rather than being omitted. -/
theorem C8_schema_row (row : Record) (k : String) (v : Value) (hk : k ∉ CSV_HEADERS) :
    ((serializeRow CSV_HEADERS row).length = CSV_HEADERS.length)
    ∧ (serializeRow CSV_HEADERS (dset row k v) = serializeRow CSV_HEADERS row)
    ∧ (∀ (i : Nat) (hname : String), CSV_HEADERS[i]? = some hname →
        dget row hname = none → (serializeRow CSV_HEADERS row)[i]? = some "") := by
  refine ⟨by simp [serializeRow], ?_, ?_⟩
  · unfold serializeRow
    apply List.map_congr_left
    intro h hmem
    have hne : ¬ h = k := fun e => hk (e ▸ hmem)
    rw [dget_dset_ne row h k v hne]
  · intro i hname hi hna
    rw [serializeRow_cell CSV_HEADERS row i hname hi, hna]

/-- C8 witness. -/
theorem C8_schema_row_w :
    ("bogus" ∉ CSV_HEADERS)
    ∧ (((serializeRow CSV_HEADERS [("cpu_temp", Value.rat 42)]).length = CSV_HEADERS.length)
       ∧ (serializeRow CSV_HEADERS (dset [("cpu_temp", Value.rat 42)] "bogus" (Value.bool true))
            = serializeRow CSV_HEADERS [("cpu_temp", Value.rat 42)])
       ∧ (∀ (i : Nat) (hname : String), CSV_HEADERS[i]? = some hname →
           dget [("cpu_temp", Value.rat 42)] hname = none →
             (serializeRow CSV_HEADERS [("cpu_temp", Value.rat 42)])[i]? = some "")) :=
  ⟨by decide, C8_schema_row [("cpu_temp", Value.rat 42)] "bogus" (Value.bool true) (by decide)⟩


/-! ## Claim C6: bus-error dedup across two cycles -/

/-- Lines that are already whitespace-stripped and either empty or present
in the retained window contribute nothing to the event fold. -/
theorem usbFold_skip (seen : List Str) (L : List Str) (acc : List Str)
    (h : ∀ l ∈ L, pyStrip l = l ∧ (l = [] ∨ l ∈ seen)) :
    L.foldl (usbFoldStep seen) acc = acc := by
  induction L generalizing acc with
  | nil => rfl
  | cons x L ih =>
    have hx := h x (List.mem_cons_self x L)
    have hL : ∀ l ∈ L, pyStrip l = l ∧ (l = [] ∨ l ∈ seen) :=
      fun l hl => h l (List.mem_cons_of_mem x hl)
    rw [List.foldl_cons]
    rw [show usbFoldStep seen acc x = acc from ?_]
    · exact ih acc hL
    · show (if (pyStrip x).isEmpty then acc
            else if seen.contains (pyStrip x) then acc
            else if usbMatches (pyStrip x) then acc ++ [pyStrip x] else acc) = acc
      rw [hx.1]
      by_cases hie : x.isEmpty = true
      · rw [if_pos hie]
      · rw [if_neg hie]
        rcases hx.2 with he | hmem
        · exact absurd (by simp [he]) hie
        · have hc : seen.contains x = true := by simpa using hmem
          rw [if_pos hc]

/-- C6 counterexample: with a 21-line first cycle, the retained deque
(maxlen 20) drops the oldest line, so after the second cycle the retained
window does not equal the full current line set as the claim requires. -/
theorem C6_counterexample :
    ((usbCheckLines (usbCheckLines [] (["l00".toList, "l01".toList, "l02".toList,
        "l03".toList, "l04".toList, "l05".toList, "l06".toList, "l07".toList,
        "l08".toList, "l09".toList, "l10".toList, "l11".toList, "l12".toList,
        "l13".toList, "l14".toList, "l15".toList, "l16".toList, "l17".toList,
        "l18".toList, "l19".toList, "l20".toList])).2
        (["l00".toList, "l01".toList, "l02".toList,
        "l03".toList, "l04".toList, "l05".toList, "l06".toList, "l07".toList,
        "l08".toList, "l09".toList, "l10".toList, "l11".toList, "l12".toList,
        "l13".toList, "l14".toList, "l15".toList, "l16".toList, "l17".toList,
        "l18".toList, "l19".toList, "l20".toList] ++ ["usb disconnect".toList])).1
      = some [("usb_events", Value.str "usb disconnect")])
    ∧ ("l00".toList ∈ (["l00".toList, "l01".toList, "l02".toList,
        "l03".toList, "l04".toList, "l05".toList, "l06".toList, "l07".toList,
        "l08".toList, "l09".toList, "l10".toList, "l11".toList, "l12".toList,
        "l13".toList, "l14".toList, "l15".toList, "l16".toList, "l17".toList,
        "l18".toList, "l19".toList, "l20".toList] ++ ["usb disconnect".toList]))
    ∧ ("l00".toList ∉ (usbCheckLines (usbCheckLines [] (["l00".toList, "l01".toList, "l02".toList,
        "l03".toList, "l04".toList, "l05".toList, "l06".toList, "l07".toList,
        "l08".toList, "l09".toList, "l10".toList, "l11".toList, "l12".toList,
        "l13".toList, "l14".toList, "l15".toList, "l16".toList, "l17".toList,
        "l18".toList, "l19".toList, "l20".toList])).2
        (["l00".toList, "l01".toList, "l02".toList,
        "l03".toList, "l04".toList, "l05".toList, "l06".toList, "l07".toList,
        "l08".toList, "l09".toList, "l10".toList, "l11".toList, "l12".toList,
        "l13".toList, "l14".toList, "l15".toList, "l16".toList, "l17".toList,
        "l18".toList, "l19".toList, "l20".toList] ++ ["usb disconnect".toList])).2) := by
  refine ⟨by decide, by decide, by decide⟩

/-- C6 (amended): restricted to cycles of at most 20 lines (the retained
deque's capacity) of stripped text, two consecutive cycles where the
second repeats every line of the first plus one new matching line report
exactly the new line, and the retained window after each cycle is the full
current line list. -/
theorem C6_dedup_two_cycles (st0 : List Str) (A : List Str) (n : Str)
    (hlen : A.length < 20) (hstrip : ∀ l ∈ A, pyStrip l = l)
    (hn1 : pyStrip n = n) (hn2 : n ≠ []) (hn3 : usbMatches n = true) (hn4 : n ∉ A) :
    ((usbCheckLines ((usbCheckLines st0 A).2) (A ++ [n])).1
        = some [("usb_events", Value.str (String.mk n))])
    ∧ ((usbCheckLines ((usbCheckLines st0 A).2) (A ++ [n])).2 = A ++ [n]) := by
  have hst1 : (usbCheckLines st0 A).2 = A := by
    show lastN 20 A = A
    unfold lastN
    rw [Nat.sub_eq_zero_of_le (Nat.le_of_lt hlen), List.drop_zero]
  rw [hst1]
  have hfold : (A ++ [n]).foldl (usbFoldStep A) [] = [n] := by
    rw [List.foldl_append]
    rw [usbFold_skip A A [] (fun l hl => ⟨hstrip l hl, Or.inr hl⟩)]
    show (if (pyStrip n).isEmpty then ([] : List Str)
          else if A.contains (pyStrip n) then []
          else if usbMatches (pyStrip n) then [] ++ [pyStrip n] else []) = [n]
    rw [hn1]
    have hie : ¬ n.isEmpty = true := by
      cases n with
      | nil => exact absurd rfl hn2
      | cons a l => simp [List.isEmpty]
    have hc : ¬ A.contains n = true := by simpa using hn4
    rw [if_neg hie, if_neg hc, if_pos hn3]
    rfl
  constructor
  · show (if !((A ++ [n]).foldl (usbFoldStep A) []).isEmpty then
        some [("usb_events", Value.str (String.mk (strJoin ("; ".toList)
          ((A ++ [n]).foldl (usbFoldStep A) []))))] else none) = _
    rw [hfold]
    rfl
  · show lastN 20 (A ++ [n]) = A ++ [n]
    unfold lastN
    have hz : (A ++ [n]).length - 20 = 0 := by
      rw [List.length_append]
      simp
      omega
    rw [hz, List.drop_zero]

/-- C6 witness. -/
theorem C6_dedup_two_cycles_w :
    ((["abc".toList].length < 20)
      ∧ (∀ l ∈ ["abc".toList], pyStrip l = l)
      ∧ (pyStrip "usb disconnect".toList = "usb disconnect".toList)
      ∧ ("usb disconnect".toList ≠ [])
      ∧ (usbMatches "usb disconnect".toList = true)
      ∧ ("usb disconnect".toList ∉ ["abc".toList]))
    ∧ (((usbCheckLines ((usbCheckLines [] ["abc".toList]).2)
          (["abc".toList] ++ ["usb disconnect".toList])).1
        = some [("usb_events", Value.str (String.mk "usb disconnect".toList))])
       ∧ ((usbCheckLines ((usbCheckLines [] ["abc".toList]).2)
          (["abc".toList] ++ ["usb disconnect".toList])).2
        = ["abc".toList] ++ ["usb disconnect".toList])) :=
  ⟨⟨by decide, by decide, by decide, by decide, by decide, by decide⟩,
   C6_dedup_two_cycles [] ["abc".toList] "usb disconnect".toList
     (by decide) (by decide) (by decide) (by decide) (by decide) (by decide)⟩

end VoronMonitor
